import Mathlib

/-!
Verification of the instrumented-allocator core of the `c_data_structures`
repository: a shallow embedding of `src/src/memory.c` / `src/include/memory.h`
(the `Memory_Stats` aggregate and the `ds_malloc` / `ds_calloc` / `ds_realloc`
/ `ds_free` family) and of `src/include/error.h` (the `Result` contract, the
`CHECK_RESULT` propagation macro and the `CHECKED_ALLOC` guarded-allocation
macro), together with theorems settling the specification's claims about them.

Modelling conventions:
* `usize` is C's `size_t`, a 64-bit unsigned machine integer; it is embedded
  as `Nat` with every arithmetic result reduced `% USIZE` (`USIZE = 2 ^ 64`)
  exactly where the C operation wraps.
* The global `static Memory_Stats stats` is made an explicit state value
  threaded through each operation.
* Whether the underlying libc allocator (`malloc` / `calloc` / `realloc`)
  returns a non-null pointer is external nondeterminism; it is passed to each
  embedded operation as an explicit `ok : Bool` parameter (`true` = the libc
  call returned non-null).  Pointer identity never influences the statistics
  in the C code, so pointers are embedded only as their nullness
  (`pointerNull : Bool`).
-/

namespace CDS

/-- Width of `usize` (`size_t`): machine arithmetic wraps modulo `2 ^ 64`. -/
def USIZE : Nat := 2 ^ 64

/-- The `Memory_Stats` structure of `src/include/memory.h`: six `usize`
counters aggregating allocation activity. -/
structure Memory_Stats where
  total_allocated : Nat
  total_freed : Nat
  current_usage : Nat
  peak_usage : Nat
  allocation_count : Nat
  free_count : Nat
  deriving Repr, DecidableEq

/-- The initial value of the global aggregate:
`static Memory_Stats stats = {0};` in `memory.c` (all fields zero, also the
state produced by `ds_reset_memory_stats`). -/
def initStats : Memory_Stats :=
  { total_allocated := 0, total_freed := 0, current_usage := 0,
    peak_usage := 0, allocation_count := 0, free_count := 0 }

/-- Statistics effect of `ds_malloc(size)` from `memory.c`.  `ok` is whether
the underlying `malloc` returned non-null.  On success the code does
`total_allocated += size; current_usage += size; allocation_count++;` and then
`if (current_usage > peak_usage) peak_usage = current_usage;`; on failure it
touches nothing. -/
def ds_malloc (ok : Bool) (size : Nat) (s : Memory_Stats) : Memory_Stats :=
  if ok then
    let total_allocated := (s.total_allocated + size) % USIZE
    let current_usage := (s.current_usage + size) % USIZE
    let allocation_count := (s.allocation_count + 1) % USIZE
    let peak_usage :=
      if current_usage > s.peak_usage then current_usage else s.peak_usage
    { s with total_allocated := total_allocated,
             current_usage := current_usage,
             allocation_count := allocation_count,
             peak_usage := peak_usage }
  else s

/-- Statistics effect of `ds_calloc(count, size)` from `memory.c`: computes
`usize total_size = count * size;` (wrapping multiplication) and on success
updates the same four fields as `ds_malloc`, using `total_size`. -/
def ds_calloc (ok : Bool) (count size : Nat) (s : Memory_Stats) : Memory_Stats :=
  let total_size := (count * size) % USIZE
  if ok then
    let total_allocated := (s.total_allocated + total_size) % USIZE
    let current_usage := (s.current_usage + total_size) % USIZE
    let allocation_count := (s.allocation_count + 1) % USIZE
    let peak_usage :=
      if current_usage > s.peak_usage then current_usage else s.peak_usage
    { s with total_allocated := total_allocated,
             current_usage := current_usage,
             allocation_count := allocation_count,
             peak_usage := peak_usage }
  else s

/-- Statistics effect of `ds_realloc(pointer, new_size)` from `memory.c`.
The code runs `realloc` and then, under `if (result && new_size > 0)`, does
`total_allocated += new_size; current_usage += new_size;` and nothing else
(the old block size is not tracked, `peak_usage` is not updated, and no count
is incremented).  `pointerNull` records whether the incoming pointer was
`NULL`; the C statistics update does not depend on it. -/
def ds_realloc (ok : Bool) (pointerNull : Bool) (new_size : Nat)
    (s : Memory_Stats) : Memory_Stats :=
  if ok ∧ 0 < new_size then
    { s with total_allocated := (s.total_allocated + new_size) % USIZE,
             current_usage := (s.current_usage + new_size) % USIZE }
  else s

/-- Statistics effect of `ds_free(pointer)` from `memory.c`: under
`if (pointer)` the code frees the block and does `free_count++;` and nothing
else; on a `NULL` pointer nothing at all happens. -/
def ds_free (pointerNull : Bool) (s : Memory_Stats) : Memory_Stats :=
  if pointerNull then s
  else { s with free_count := (s.free_count + 1) % USIZE }

/-- `ds_alloc_array(count, element_size)` from `memory.c`:
`return ds_calloc(count, element_size);`. -/
def ds_alloc_array (ok : Bool) (count element_size : Nat)
    (s : Memory_Stats) : Memory_Stats :=
  ds_calloc ok count element_size s

/-- `ds_realloc_array(array, new_count, element_size)` from `memory.c`:
`return ds_realloc(array, new_count * element_size);` where the product is a
wrapping `usize` multiplication. -/
def ds_realloc_array (ok : Bool) (arrayNull : Bool)
    (new_count element_size : Nat) (s : Memory_Stats) : Memory_Stats :=
  ds_realloc ok arrayNull ((new_count * element_size) % USIZE) s

/-- `ds_get_memory_stats()` from `memory.c`: returns a copy of the global
aggregate, with no side effect. -/
def ds_get_memory_stats (s : Memory_Stats) : Memory_Stats := s

/-- `ds_reset_memory_stats()` from `memory.c`:
`stats = (Memory_Stats){0};`. -/
def ds_reset_memory_stats (_ : Memory_Stats) : Memory_Stats := initStats

/-- One call to a statistics-mutating operation of `memory.c`, with its
external nondeterminism (`ok`, pointer nullness) and arguments recorded. -/
inductive MemOp where
  | malloc (ok : Bool) (size : Nat)
  | calloc (ok : Bool) (count size : Nat)
  | realloc (ok : Bool) (pointerNull : Bool) (new_size : Nat)
  | free (pointerNull : Bool)
  | reset
  deriving Repr, DecidableEq

/-- Dispatch of one `MemOp` to its statistics effect. -/
def step (s : Memory_Stats) (op : MemOp) : Memory_Stats :=
  match op with
  | .malloc ok size => ds_malloc ok size s
  | .calloc ok count size => ds_calloc ok count size s
  | .realloc ok pointerNull new_size => ds_realloc ok pointerNull new_size s
  | .free pointerNull => ds_free pointerNull s
  | .reset => ds_reset_memory_stats s

/-- Aggregate state after running a sequence of calls from a given state. -/
def runFrom (s : Memory_Stats) (ops : List MemOp) : Memory_Stats :=
  ops.foldl step s

/-- Aggregate state after running a sequence of calls from the initial
all-zero global state. -/
def run (ops : List MemOp) : Memory_Stats :=
  runFrom initStats ops

/-- Whether a call is one of the two basic allocation entry points
(`ds_malloc` / `ds_calloc`), the only places `memory.c` updates
`peak_usage`. -/
def MemOp.isBasicAlloc : MemOp → Bool
  | .malloc _ _ => true
  | .calloc _ _ _ => true
  | _ => false

/-- The `current_usage` values observed immediately after each call of a
sequence, starting from state `s`. -/
def usageTrace (s : Memory_Stats) : List MemOp → List Nat
  | [] => []
  | op :: ops => (step s op).current_usage :: usageTrace (step s op) ops

/-- The `Result_Code` enumeration of `src/include/error.h`.  A C `enum` is an
`int`-typed value, and `result_description` must be total over all `int`
values (its `switch` has a `default`), so the code type is embedded as `Int`
with the fourteen enumerators as named constants `0 .. 13` in declaration
order. -/
abbrev Result_Code : Type := Int

def DS_SUCCESS : Int := 0

def DS_ERROR_INVALID_ARGUMENT : Int := 1

def DS_ERROR_MEMORY_ALLOCATION : Int := 2

def DS_ERROR_INDEX_OUT_OF_BOUNDS : Int := 3

def DS_ERROR_EMPTY_CONTAINER : Int := 4

def DS_ERROR_FULL_CONTAINER : Int := 5

def DS_ERROR_NOT_FOUND : Int := 6

def DS_ERROR_DUPLICATE : Int := 7

def DS_ERROR_OVERFLOW : Int := 8

def DS_ERROR_UNDERFLOW : Int := 9

def DS_ERROR_NULL_POINTER : Int := 10

def DS_ERROR_CORRUPTED_DATA : Int := 11

def DS_ERROR_NOT_IMPLEMENTED : Int := 12

def DS_ERROR_UNKNOWN : Int := 13

/-- The `Result` structure of `src/include/error.h`: outcome code, diagnostic
message, and origin (`__FILE__`, `__LINE__`). -/
structure Result where
  code : Int
  message : String
  file : String
  line : Int
  deriving DecidableEq

/-- The `RESULT_SUCCESS` macro of `error.h`:
`((Result){DS_SUCCESS, "Success.", __FILE__, __LINE__})`; the call site's file
and line are arguments of the embedding. -/
def RESULT_SUCCESS (file : String) (line : Int) : Result :=
  { code := DS_SUCCESS, message := "Success.", file := file, line := line }

/-- The `RESULT_ERROR(code, msg)` macro of `error.h`:
`((Result){code, msg, __FILE__, __LINE__})`. -/
def RESULT_ERROR (code : Int) (msg : String)
    (file : String) (line : Int) : Result :=
  { code := code, message := msg, file := file, line := line }

/-- `result_is_success` from the error-handling translation unit:
`return result.code == DS_SUCCESS;`. -/
def result_is_success (result : Result) : Bool :=
  decide (result.code = DS_SUCCESS)

/-- `result_is_error` from the error-handling translation unit:
`return result.code != DS_SUCCESS;`. -/
def result_is_error (result : Result) : Bool :=
  decide (result.code ≠ DS_SUCCESS)

/-- `result_description` from the error-handling translation unit: a `switch`
on the code with one `case` per enumerator from `DS_SUCCESS` through
`DS_ERROR_NOT_IMPLEMENTED` and a `default` returning `"Unknown error."`
(`DS_ERROR_UNKNOWN` has no `case` of its own and falls to the `default`). -/
def result_description (code : Int) : String :=
  if code = DS_SUCCESS then "Success."
  else if code = DS_ERROR_INVALID_ARGUMENT then "Invalid argument."
  else if code = DS_ERROR_MEMORY_ALLOCATION then "Memory allocation failed."
  else if code = DS_ERROR_INDEX_OUT_OF_BOUNDS then "Index out of bounds."
  else if code = DS_ERROR_EMPTY_CONTAINER then "Container is empty."
  else if code = DS_ERROR_FULL_CONTAINER then "Container is full."
  else if code = DS_ERROR_NOT_FOUND then "Element not found."
  else if code = DS_ERROR_DUPLICATE then "Duplicate element."
  else if code = DS_ERROR_OVERFLOW then "Overflow occurred."
  else if code = DS_ERROR_UNDERFLOW then "Underflow occurred."
  else if code = DS_ERROR_NULL_POINTER then "Null pointer."
  else if code = DS_ERROR_CORRUPTED_DATA then "Data corrupted."
  else if code = DS_ERROR_NOT_IMPLEMENTED then "Not implemented."
  else "Unknown error."

/-- The `CHECK_RESULT(expr)` macro of `error.h`: evaluates `expr` into
`_result` and, `if (result_is_error(_result)) return _result;`, otherwise
execution falls through.  The rest of the enclosing `Result`-returning
operation is embedded as the continuation `k`. -/
def CHECK_RESULT (expr : Result) (k : Unit → Result) : Result :=
  let _result := expr
  if result_is_error _result then _result else k ()

/-- The `CHECKED_ALLOC(ptr, type)` macro of `memory.h`: runs
`ptr = ALLOC(type)` (that is, `ds_malloc(sizeof(type))`) and, `if (!ptr)`,
returns `RESULT_ERROR(DS_ERROR_MEMORY_ALLOCATION, "Failed to allocate " #type)`.
The embedding returns the updated statistics together with `some errorResult`
when the macro makes the enclosing operation return early, and `none` when
execution continues. -/
def CHECKED_ALLOC (ok : Bool) (typeName : String) (sizeofType : Nat)
    (file : String) (line : Int) (s : Memory_Stats) :
    Memory_Stats × Option Result :=
  let s1 := ds_malloc ok sizeofType s
  if !ok then
    (s1, some (RESULT_ERROR DS_ERROR_MEMORY_ALLOCATION
      ("Failed to allocate " ++ typeName) file line))
  else (s1, none)

/-! Helper lemmas shared by the claim theorems. -/

/-- `ds_calloc` is `ds_malloc` on the wrapped product `count * size`: the two
bodies update the statistics identically. -/
lemma ds_calloc_eq_ds_malloc (ok : Bool) (count size : Nat) (s : Memory_Stats) :
    ds_calloc ok count size s = ds_malloc ok ((count * size) % USIZE) s := rfl

/-- After `ds_malloc`, `peak_usage` is the maximum of the old peak and the new
`current_usage`, provided the state already satisfied
`current_usage ≤ peak_usage`; in particular that inequality is preserved. -/
lemma ds_malloc_peak_spec (ok : Bool) (t : Nat) (s : Memory_Stats)
    (h : s.current_usage ≤ s.peak_usage) :
    (ds_malloc ok t s).peak_usage
        = Nat.max s.peak_usage (ds_malloc ok t s).current_usage
      ∧ (ds_malloc ok t s).current_usage ≤ (ds_malloc ok t s).peak_usage := by
  cases ok with
  | false =>
    simp only [ds_malloc, Bool.false_eq_true, if_false]
    exact ⟨(Nat.max_eq_left h).symm, h⟩
  | true =>
    simp only [ds_malloc, if_true]
    refine ⟨?_, ?_⟩ <;> split_ifs with hgt
    · exact (Nat.max_eq_right (Nat.le_of_lt hgt)).symm
    · exact (Nat.max_eq_left (Nat.le_of_not_lt hgt)).symm
    · exact Nat.le_refl _
    · exact Nat.le_of_not_lt hgt

/-- A single call preserves `total_freed = 0 ∧ current_usage =
total_allocated`. -/
lemma step_accounting (s : Memory_Stats) (op : MemOp)
    (h1 : s.total_freed = 0) (h2 : s.current_usage = s.total_allocated) :
    (step s op).total_freed = 0
      ∧ (step s op).current_usage = (step s op).total_allocated := by
  cases op with
  | malloc ok size => cases ok <;> simp [step, ds_malloc, h1, h2]
  | calloc ok count size => cases ok <;> simp [step, ds_calloc, h1, h2]
  | realloc ok pointerNull new_size =>
    simp only [step, ds_realloc]
    split <;> simp [h1, h2]
  | free pointerNull => cases pointerNull <;> simp [step, ds_free, h1, h2]
  | reset => simp [step, ds_reset_memory_stats, initStats]

/-- Running any call sequence preserves `total_freed = 0 ∧ current_usage =
total_allocated`. -/
lemma runFrom_accounting_inv (ops : List MemOp) :
    ∀ s : Memory_Stats, s.total_freed = 0 →
      s.current_usage = s.total_allocated →
      (runFrom s ops).total_freed = 0
        ∧ (runFrom s ops).current_usage = (runFrom s ops).total_allocated := by
  induction ops with
  | nil => exact fun s h1 h2 => ⟨h1, h2⟩
  | cons op ops ih =>
    intro s h1 h2
    have h := step_accounting s op h1 h2
    exact ih (step s op) h.1 h.2

/-- Over a sequence of `ds_malloc` / `ds_calloc` calls, `peak_usage` is the
running maximum of the observed `current_usage` values (seeded with the
starting peak), and it stays above `current_usage`. -/
lemma runFrom_peak_inv (ops : List MemOp) :
    ∀ s : Memory_Stats, s.current_usage ≤ s.peak_usage →
      (∀ op ∈ ops, op.isBasicAlloc = true) →
      (runFrom s ops).peak_usage
          = (usageTrace s ops).foldl Nat.max s.peak_usage
        ∧ (runFrom s ops).current_usage ≤ (runFrom s ops).peak_usage := by
  induction ops with
  | nil => exact fun s h _ => ⟨rfl, h⟩
  | cons op ops ih =>
    intro s h hops
    have hbasic : op.isBasicAlloc = true := hops op (List.mem_cons_self _ _)
    have hops' : ∀ o ∈ ops, o.isBasicAlloc = true :=
      fun o ho => hops o (List.mem_cons_of_mem _ ho)
    obtain ⟨ok, t, hstep⟩ : ∃ ok t, step s op = ds_malloc ok t s := by
      cases op with
      | malloc ok size => exact ⟨ok, size, rfl⟩
      | calloc ok count size => exact ⟨ok, (count * size) % USIZE, rfl⟩
      | realloc ok pointerNull new_size => simp [MemOp.isBasicAlloc] at hbasic
      | free pointerNull => simp [MemOp.isBasicAlloc] at hbasic
      | reset => simp [MemOp.isBasicAlloc] at hbasic
    have hspec := ds_malloc_peak_spec ok t s h
    rw [← hstep] at hspec
    have hrec := ih (step s op) hspec.2 hops'
    refine ⟨?_, hrec.2⟩
    have hrun : runFrom s (op :: ops) = runFrom (step s op) ops := rfl
    rw [hrun, hrec.1]
    simp only [usageTrace, List.foldl_cons]
    rw [hspec.1]

/-- Every code outside the range `0 .. 12` handled by an explicit `case`
falls to the `default` branch of the `switch`. -/
lemma result_description_default (code : Int)
    (h : code < 0 ∨ 12 < code) :
    result_description code = "Unknown error." := by
  obtain ⟨h0, h1, h2, h3, h4, h5, h6, h7, h8, h9, h10, h11, h12⟩ :
      ¬code = DS_SUCCESS ∧ ¬code = DS_ERROR_INVALID_ARGUMENT
        ∧ ¬code = DS_ERROR_MEMORY_ALLOCATION
        ∧ ¬code = DS_ERROR_INDEX_OUT_OF_BOUNDS
        ∧ ¬code = DS_ERROR_EMPTY_CONTAINER ∧ ¬code = DS_ERROR_FULL_CONTAINER
        ∧ ¬code = DS_ERROR_NOT_FOUND ∧ ¬code = DS_ERROR_DUPLICATE
        ∧ ¬code = DS_ERROR_OVERFLOW ∧ ¬code = DS_ERROR_UNDERFLOW
        ∧ ¬code = DS_ERROR_NULL_POINTER ∧ ¬code = DS_ERROR_CORRUPTED_DATA
        ∧ ¬code = DS_ERROR_NOT_IMPLEMENTED := by
    unfold DS_SUCCESS DS_ERROR_INVALID_ARGUMENT DS_ERROR_MEMORY_ALLOCATION
      DS_ERROR_INDEX_OUT_OF_BOUNDS DS_ERROR_EMPTY_CONTAINER
      DS_ERROR_FULL_CONTAINER DS_ERROR_NOT_FOUND DS_ERROR_DUPLICATE
      DS_ERROR_OVERFLOW DS_ERROR_UNDERFLOW DS_ERROR_NULL_POINTER
      DS_ERROR_CORRUPTED_DATA DS_ERROR_NOT_IMPLEMENTED
    omega
  unfold result_description
  rw [if_neg h0, if_neg h1, if_neg h2, if_neg h3, if_neg h4, if_neg h5,
    if_neg h6, if_neg h7, if_neg h8, if_neg h9, if_neg h10, if_neg h11,
    if_neg h12]

/-- `result_description` never returns the empty string: the handled codes
map to their fixed strings and everything else maps to `"Unknown error."`. -/
lemma result_description_nonempty (code : Int) :
    result_description code ≠ "" := by
  by_cases hr : 0 ≤ code ∧ code ≤ 12
  · have hc : code = 0 ∨ code = 1 ∨ code = 2 ∨ code = 3 ∨ code = 4
        ∨ code = 5 ∨ code = 6 ∨ code = 7 ∨ code = 8 ∨ code = 9 ∨ code = 10
        ∨ code = 11 ∨ code = 12 := by omega
    rcases hc with rfl | rfl | rfl | rfl | rfl | rfl | rfl | rfl | rfl | rfl
      | rfl | rfl | rfl
    · exact ne_of_eq_of_ne
        (show result_description 0 = "Success." from rfl) (by simp)
    · exact ne_of_eq_of_ne
        (show result_description 1 = "Invalid argument." from rfl) (by simp)
    · exact ne_of_eq_of_ne
        (show result_description 2 = "Memory allocation failed." from rfl)
        (by simp)
    · exact ne_of_eq_of_ne
        (show result_description 3 = "Index out of bounds." from rfl) (by simp)
    · exact ne_of_eq_of_ne
        (show result_description 4 = "Container is empty." from rfl) (by simp)
    · exact ne_of_eq_of_ne
        (show result_description 5 = "Container is full." from rfl) (by simp)
    · exact ne_of_eq_of_ne
        (show result_description 6 = "Element not found." from rfl) (by simp)
    · exact ne_of_eq_of_ne
        (show result_description 7 = "Duplicate element." from rfl) (by simp)
    · exact ne_of_eq_of_ne
        (show result_description 8 = "Overflow occurred." from rfl) (by simp)
    · exact ne_of_eq_of_ne
        (show result_description 9 = "Underflow occurred." from rfl) (by simp)
    · exact ne_of_eq_of_ne
        (show result_description 10 = "Null pointer." from rfl) (by simp)
    · exact ne_of_eq_of_ne
        (show result_description 11 = "Data corrupted." from rfl) (by simp)
    · exact ne_of_eq_of_ne
        (show result_description 12 = "Not implemented." from rfl) (by simp)
  · exact ne_of_eq_of_ne (result_description_default code (by omega)) (by simp)

/-! Claim theorems. -/

/-- C1 (counterexample): the claim that after every successful allocating
call, resize included, `peak_usage` is at least `current_usage` is false at a
concrete input: a single successful `ds_realloc(NULL, 10)` from the initial
state leaves `current_usage = 10` but `peak_usage = 0`, because `ds_realloc`
never updates `peak_usage`. -/
theorem peak_usage_below_current_after_successful_resize :
    (run [MemOp.realloc true true 10]).peak_usage
      < (run [MemOp.realloc true true 10]).current_usage := by decide

/-- C1 (amended): `peak_usage` is updated only by the two basic allocation
entry points (`ds_realloc` and `ds_free` leave it unchanged), is
non-decreasing under `ds_malloc` / `ds_calloc`, and over every sequence of
`ds_malloc` / `ds_calloc` calls from the initial state it equals the maximum
`current_usage` observed immediately after each call and is at least
`current_usage`; a successful `ds_realloc`, however, is excluded, since it
raises `current_usage` without touching `peak_usage`. -/
theorem peak_usage_max_over_basic_allocs :
    (∀ (ok pointerNull : Bool) (new_size : Nat) (s : Memory_Stats),
        (ds_realloc ok pointerNull new_size s).peak_usage = s.peak_usage)
    ∧ (∀ (pointerNull : Bool) (s : Memory_Stats),
        (ds_free pointerNull s).peak_usage = s.peak_usage)
    ∧ (∀ (ok : Bool) (size : Nat) (s : Memory_Stats),
        s.peak_usage ≤ (ds_malloc ok size s).peak_usage)
    ∧ (∀ (ok : Bool) (count size : Nat) (s : Memory_Stats),
        s.peak_usage ≤ (ds_calloc ok count size s).peak_usage)
    ∧ (∀ ops : List MemOp, (∀ op ∈ ops, op.isBasicAlloc = true) →
        (run ops).peak_usage = (usageTrace initStats ops).foldl Nat.max 0
        ∧ (run ops).current_usage ≤ (run ops).peak_usage) := by
  refine ⟨?_, ?_, ?_, ?_, ?_⟩
  · intro ok pointerNull new_size s
    unfold ds_realloc
    split <;> rfl
  · intro pointerNull s
    unfold ds_free
    split <;> rfl
  · intro ok size s
    cases ok with
    | false => exact Nat.le_refl _
    | true =>
      simp only [ds_malloc, if_true]
      split_ifs with hgt
      · exact Nat.le_of_lt hgt
      · exact Nat.le_refl _
  · intro ok count size s
    rw [ds_calloc_eq_ds_malloc]
    cases ok with
    | false => exact Nat.le_refl _
    | true =>
      simp only [ds_malloc, if_true]
      split_ifs with hgt
      · exact Nat.le_of_lt hgt
      · exact Nat.le_refl _
  · exact fun ops hops => runFrom_peak_inv ops initStats (Nat.le_refl 0) hops

/-- Witness for C1's amended theorem at a concrete two-call sequence. -/
theorem peak_usage_max_over_basic_allocs_witness :
    (run [MemOp.malloc true 100, MemOp.calloc true 5 10]).peak_usage
        = (usageTrace initStats
            [MemOp.malloc true 100, MemOp.calloc true 5 10]).foldl Nat.max 0
      ∧ (run [MemOp.malloc true 100, MemOp.calloc true 5 10]).current_usage
        ≤ (run [MemOp.malloc true 100, MemOp.calloc true 5 10]).peak_usage :=
  peak_usage_max_over_basic_allocs.2.2.2.2 _ (by decide)

/-- C2: a successful `ds_realloc` with `new_size > 0`, on a null or non-null
input pointer alike, adds exactly `new_size` (wrapping) to `total_allocated`
and to `current_usage`, subtracts nothing for the old block, and leaves every
other statistics field unchanged. -/
theorem ds_realloc_success_adds_new_size (s : Memory_Stats)
    (pointerNull : Bool) (new_size : Nat) (h : 0 < new_size) :
    ds_realloc true pointerNull new_size s
      = { s with total_allocated := (s.total_allocated + new_size) % USIZE,
                 current_usage := (s.current_usage + new_size) % USIZE } := by
  unfold ds_realloc
  rw [if_pos ⟨rfl, h⟩]

/-- Witness for C2 at `new_size = 7` from the initial state. -/
theorem ds_realloc_success_adds_new_size_witness :
    ds_realloc true false 7 initStats
      = { total_allocated := 7, total_freed := 0, current_usage := 7,
          peak_usage := 0, allocation_count := 0, free_count := 0 } :=
  (ds_realloc_success_adds_new_size initStats false 7 (by decide)).trans
    (by decide)

/-- C3: `ds_free` on a null pointer changes no statistics field at all, and on
a real block it bumps `free_count` by exactly one (wrapping) while leaving
`total_allocated`, `total_freed`, `current_usage`, `peak_usage` and
`allocation_count` unchanged. -/
theorem ds_free_frame_effect (s : Memory_Stats) :
    ds_free true s = s
    ∧ (ds_free false s).free_count = (s.free_count + 1) % USIZE
    ∧ (ds_free false s).total_allocated = s.total_allocated
    ∧ (ds_free false s).total_freed = s.total_freed
    ∧ (ds_free false s).current_usage = s.current_usage
    ∧ (ds_free false s).peak_usage = s.peak_usage
    ∧ (ds_free false s).allocation_count = s.allocation_count := by
  simp [ds_free]

/-- C4: when the underlying allocator fails, `ds_malloc` and `ds_calloc`
mutate no statistics field: the aggregate after the failed call equals the
aggregate before it. -/
theorem alloc_failure_mutates_nothing (s : Memory_Stats) (size count : Nat) :
    ds_malloc false size s = s ∧ ds_calloc false count size s = s := by
  constructor <;> rfl

/-- C5: for every `n` (a `usize` value, so `n < 2 ^ 64`), a single successful
`ds_malloc(n)` from the all-zero initial state yields
`total_allocated = n`, `current_usage = n`, `peak_usage = n` and
`allocation_count = 1`. -/
theorem single_malloc_from_init (n : Nat) (h : n < USIZE) :
    (ds_malloc true n initStats).total_allocated = n
    ∧ (ds_malloc true n initStats).current_usage = n
    ∧ (ds_malloc true n initStats).peak_usage = n
    ∧ (ds_malloc true n initStats).allocation_count = 1 := by
  have hn : n % USIZE = n := Nat.mod_eq_of_lt h
  have h1 : (1 : Nat) % USIZE = 1 := Nat.mod_eq_of_lt (by unfold USIZE; omega)
  refine ⟨?_, ?_, ?_, ?_⟩ <;> simp [ds_malloc, initStats, hn, h1] <;> omega

/-- Witness for C5 at `n = 100`. -/
theorem single_malloc_from_init_witness :
    (ds_malloc true 100 initStats).total_allocated = 100
    ∧ (ds_malloc true 100 initStats).current_usage = 100
    ∧ (ds_malloc true 100 initStats).peak_usage = 100
    ∧ (ds_malloc true 100 initStats).allocation_count = 1 :=
  single_malloc_from_init 100 (by decide)

/-- C6: `ds_alloc_array` delegates exactly to `ds_calloc` on `count` elements
of `element_size` bytes, and `ds_realloc_array` delegates exactly to
`ds_realloc` on the product `new_count * element_size` computed with wrapping
`usize` multiplication and no overflow check; in particular a successful
`ds_realloc_array` of `2 ^ 32` elements of `2 ^ 32` bytes wraps the product to
`0` and records nothing. -/
theorem array_helpers_delegate_wrapping :
    (∀ (ok : Bool) (count element_size : Nat) (s : Memory_Stats),
        ds_alloc_array ok count element_size s
          = ds_calloc ok count element_size s)
    ∧ (∀ (ok arrayNull : Bool) (new_count element_size : Nat)
          (s : Memory_Stats),
        ds_realloc_array ok arrayNull new_count element_size s
          = ds_realloc ok arrayNull ((new_count * element_size) % USIZE) s)
    ∧ (∀ (arrayNull : Bool) (s : Memory_Stats),
        ds_realloc_array true arrayNull (2 ^ 32) (2 ^ 32) s = s) := by
  refine ⟨fun _ _ _ _ => rfl, fun _ _ _ _ _ => rfl, fun arrayNull s => ?_⟩
  have h : ((2 ^ 32 : Nat) * 2 ^ 32) % USIZE = 0 := by decide
  unfold ds_realloc_array ds_realloc
  rw [h, if_neg]
  intro hc
  exact absurd hc.2 (by omega)

/-- C7: when the underlying allocator refuses the request, `CHECKED_ALLOC`
returns early with an outcome of kind `DS_ERROR_MEMORY_ALLOCATION` whose
message names the requested type, and the statistics aggregate is left
exactly as it was. -/
theorem checked_alloc_failure_result (typeName file : String) (line : Int)
    (sizeofType : Nat) (s : Memory_Stats) :
    CHECKED_ALLOC false typeName sizeofType file line s
      = (s, some { code := DS_ERROR_MEMORY_ALLOCATION,
                   message := "Failed to allocate " ++ typeName,
                   file := file, line := line })
    ∧ result_is_error { code := DS_ERROR_MEMORY_ALLOCATION,
                        message := "Failed to allocate " ++ typeName,
                        file := file, line := line } = true := by
  constructor
  · rfl
  · simp [result_is_error, DS_ERROR_MEMORY_ALLOCATION, DS_SUCCESS]

/-- C8: `CHECK_RESULT` makes the enclosing operation return an error outcome
exactly as produced — every field, message and origin included — and on a
success outcome it falls through to the rest of the operation. -/
theorem check_result_propagates_unchanged (r : Result) (k : Unit → Result) :
    (result_is_error r = true → CHECK_RESULT r k = r)
    ∧ (result_is_error r = false → CHECK_RESULT r k = k ()) := by
  constructor <;> intro h <;> simp [CHECK_RESULT, h]

/-- Witness for C8 on a concrete error outcome and a concrete success
outcome. -/
theorem check_result_propagates_unchanged_witness :
    CHECK_RESULT (RESULT_ERROR DS_ERROR_NOT_FOUND "missing key" "map.c" 41)
        (fun _ => RESULT_SUCCESS "map.c" 42)
      = RESULT_ERROR DS_ERROR_NOT_FOUND "missing key" "map.c" 41
    ∧ CHECK_RESULT (RESULT_SUCCESS "map.c" 7)
        (fun _ => RESULT_ERROR DS_ERROR_DUPLICATE "dup" "map.c" 8)
      = RESULT_ERROR DS_ERROR_DUPLICATE "dup" "map.c" 8 :=
  ⟨(check_result_propagates_unchanged _ _).1 (by decide),
   (check_result_propagates_unchanged _ _).2 (by decide)⟩

/-- C9: `result_description` is total over all `int` code values: every value
below `DS_SUCCESS` or above `DS_ERROR_NOT_IMPLEMENTED` — `DS_ERROR_UNKNOWN`
and every out-of-enumeration value included — maps to `"Unknown error."`, the
result is a non-empty string for every code, and each of the fourteen
enumerated kinds maps to its fixed string. -/
theorem result_description_total :
    (∀ code : Result_Code,
        (code < DS_SUCCESS ∨ DS_ERROR_NOT_IMPLEMENTED < code) →
        result_description code = "Unknown error.")
    ∧ (∀ code : Result_Code, result_description code ≠ "")
    ∧ result_description DS_SUCCESS = "Success."
    ∧ result_description DS_ERROR_INVALID_ARGUMENT = "Invalid argument."
    ∧ result_description DS_ERROR_MEMORY_ALLOCATION
        = "Memory allocation failed."
    ∧ result_description DS_ERROR_INDEX_OUT_OF_BOUNDS = "Index out of bounds."
    ∧ result_description DS_ERROR_EMPTY_CONTAINER = "Container is empty."
    ∧ result_description DS_ERROR_FULL_CONTAINER = "Container is full."
    ∧ result_description DS_ERROR_NOT_FOUND = "Element not found."
    ∧ result_description DS_ERROR_DUPLICATE = "Duplicate element."
    ∧ result_description DS_ERROR_OVERFLOW = "Overflow occurred."
    ∧ result_description DS_ERROR_UNDERFLOW = "Underflow occurred."
    ∧ result_description DS_ERROR_NULL_POINTER = "Null pointer."
    ∧ result_description DS_ERROR_CORRUPTED_DATA = "Data corrupted."
    ∧ result_description DS_ERROR_NOT_IMPLEMENTED = "Not implemented."
    ∧ result_description DS_ERROR_UNKNOWN = "Unknown error." := by
  refine ⟨?_, result_description_nonempty, rfl, rfl, rfl, rfl, rfl, rfl, rfl,
    rfl, rfl, rfl, rfl, rfl, rfl, rfl⟩
  intro code h
  unfold DS_SUCCESS DS_ERROR_NOT_IMPLEMENTED at h
  exact result_description_default code h

/-- Witness for C9's default clause at the out-of-enumeration codes `99`
and `-1`. -/
theorem result_description_total_witness :
    result_description 99 = "Unknown error."
    ∧ result_description (-1) = "Unknown error." :=
  ⟨result_description_total.1 99 (by decide),
   result_description_total.1 (-1) (by decide)⟩

/-- C10: in every state reachable from the initial all-zero aggregate through
any sequence of `ds_malloc`, `ds_calloc`, `ds_realloc`, `ds_free` and
`ds_reset_memory_stats` calls, `total_freed = 0` and
`current_usage = total_allocated`, so the intended identity
`current_usage = total_allocated - total_freed` holds exactly. -/
theorem reachable_usage_accounting (ops : List MemOp) :
    (run ops).total_freed = 0
    ∧ (run ops).current_usage = (run ops).total_allocated
    ∧ (run ops).current_usage
        = (run ops).total_allocated - (run ops).total_freed := by
  have h := runFrom_accounting_inv ops initStats rfl rfl
  refine ⟨h.1, h.2, ?_⟩
  have hz : (run ops).total_freed = 0 := h.1
  rw [hz, Nat.sub_zero]
  exact h.2

end CDS
